import Mathlib

/-!
Verification of the particle-dissolve ("dust") effect of the
expo-disintegrate-effect repository.

The core of the repository is a per-pixel reverse-lookup particle field
implemented as two SkSL shaders (the refined DUST_SHADER of
src/components/cylinder.tsx and the earlier DUST_SNAP_SHADER of the unnamed
source file), surrounded by a small animation driver.  This file gives a
shallow embedding of both shaders over the rationals, with the GPU
transcendental functions (sin, cos, pow) abstracted as explicit function
parameters, and an embedding of the driver's time ramp and completion timer.
-/

namespace DustEffect

/-- GPU scalar intrinsics the shaders use.  Their exact values are
implementation-defined on a GPU, so the embedding is parametric in them; all
theorems hold for every choice of these functions. -/
structure TrigOps where
  sin : ℚ → ℚ
  cos : ℚ → ℚ
  pow : ℚ → ℚ → ℚ

/-- A concrete instantiation of the GPU intrinsics, used to evaluate the
embedding on closed inputs. -/
def zeroOps : TrigOps := ⟨fun _ => 0, fun _ => 0, fun _ _ => 0⟩

/-- half4 color value. -/
structure Color where
  r : ℚ
  g : ℚ
  b : ℚ
  a : ℚ
deriving DecidableEq

/-- The value `half4(0.0)`: the fully transparent color. -/
def transparent : Color := ⟨0, 0, 0, 0⟩

/-- The DUST_SHADER uniforms that come from ANIMATION_CONFIG
(cylinder.tsx lines 85-97). -/
structure DustConfig where
  timeScale : ℚ
  maxTime : ℚ
  windSpeed : ℚ
  verticalSpread : ℚ
  turbulence : ℚ
  burstStrength : ℚ
  floatAmp : ℚ
  reverseWindMult : ℚ
  lifetimeMin : ℚ
  lifetimeRange : ℚ
  fadeStart : ℚ
  driftX : ℚ
  driftY : ℚ
deriving DecidableEq

/-- ANIMATION_CONFIG (cylinder.tsx lines 51-66), restricted to the shader
uniforms. -/
def ANIMATION_CONFIG : DustConfig :=
  { timeScale := 22.0
    maxTime := 250.0
    windSpeed := 12
    verticalSpread := 60.0
    turbulence := 35.0
    burstStrength := 45.0
    floatAmp := 25.0
    reverseWindMult := 6.0
    lifetimeMin := 180.0
    lifetimeRange := 100.0
    fadeStart := 0.92
    driftX := 3.5
    driftY := 2.5 }

/-- ANIMATION_CONFIG.DURATION_MS (cylinder.tsx line 52). -/
def DURATION_MS : ℚ := 1000

/-- The remaining DUST_SHADER uniforms (cylinder.tsx lines 76-83): the image
is a total color-valued function of image-local coordinates, as `image.eval`
is. -/
structure DustEnv where
  image : ℚ × ℚ → Color
  time : ℚ
  imageSize : ℚ × ℚ
  imageOffset : ℚ × ℚ
  canvasOffset : ℚ × ℚ
  particleSize : ℚ
  seed : ℚ
  isCircle : ℤ

/-- The `hash` function of DUST_SHADER (cylinder.tsx lines 103-105):
`fract(sin(dot(p, float2(127.1, 311.7))) * 43758.5)`. -/
def hash (ops : TrigOps) (p : ℚ × ℚ) : ℚ :=
  Int.fract (ops.sin (p.1 * 127.1 + p.2 * 311.7) * 43758.5)

/-- Image-local position of the candidate at offset `off` from the estimated
source position (cylinder.tsx line 122). -/
def candidateLocal (ps : ℚ) (basePos : ℚ × ℚ) (off : ℤ × ℤ) : ℚ × ℚ :=
  (basePos.1 + (off.1 : ℚ) * ps, basePos.2 + (off.2 : ℚ) * ps)

/-- The cell id `floor(imgLocalPos * invPS)` with `invPS = 1/particleSize`
(cylinder.tsx lines 118, 127), kept as a rational pair as in the shader. -/
def cellIdOf (ps : ℚ) (p : ℚ × ℚ) : ℚ × ℚ :=
  (((⌊p.1 * (1 / ps)⌋ : ℤ) : ℚ), ((⌊p.2 * (1 / ps)⌋ : ℤ) : ℚ))

/-- Per-cell fade alpha (cylinder.tsx lines 182-185): the branch on
`lifeRatio > fadeStart` followed by `alpha = alpha * alpha`. -/
def fadeAlpha (fadeStart lifeFrac : ℚ) : ℚ :=
  let a0 := if lifeFrac > fadeStart then
      1 - (lifeFrac - fadeStart) / (1 - fadeStart)
    else 1
  a0 * a0

/-- The displacement of a cell (cylinder.tsx lines 139-172): wind,
turbulence, burst, float and drift terms summed and multiplied by the
start-ease ramp. `rnd1`, `rnd2`, `rnd3` and `lifeFrac` are the per-cell
random scalars and life ratio derived in the surrounding loop body. -/
def cellMovement (ops : TrigOps) (cfg : DustConfig)
    (t rnd1 rnd2 rnd3 lifeFrac : ℚ) : ℚ × ℚ :=
  let startEase := min (lifeFrac * 10.0) 1.0
  let windX := -cfg.windSpeed * t * (0.7 + rnd1 * 0.6)
  let verticalDir := rnd2 * 2.0 - 1.0
  let windY := verticalDir * cfg.verticalSpread * t * (0.5 + rnd3 * 0.5)
  let turbPhase := t * 0.07 + rnd3 * 20.0
  let turbX := ops.sin turbPhase * cfg.turbulence * rnd1
  let turbY := ops.cos turbPhase * cfg.turbulence * rnd2
  let burstAngle := rnd3 * 6.283
  let burstDecay := 1.0 / (1.0 + lifeFrac * 5.0)
  let burstX := ops.cos burstAngle * cfg.burstStrength * burstDecay
  let burstY := ops.sin burstAngle * cfg.burstStrength * burstDecay
  let floatPhase := t * 0.05 + rnd1 * 10.0
  let floatX := ops.sin floatPhase * cfg.floatAmp * 0.5
  let floatY := ops.cos (floatPhase * 0.7) * cfg.floatAmp
  let driftDirX := (rnd1 - 0.5) * 2.0
  let driftDirY := (rnd2 - 0.5) * 2.0
  let tSq := t * t * 0.01
  let continuousDriftX := driftDirX * cfg.driftX * tSq
  let continuousDriftY := driftDirY * cfg.driftY * tSq
  ((windX + turbX + burstX + floatX + continuousDriftX) * startEase,
   (windY + turbY + burstY + floatY + continuousDriftY) * startEase)

/-- The shape test (cylinder.tsx lines 177-179): squared distance against
`halfSizeSq` for circles, per-axis absolute offsets against `halfSize` for
squares. -/
def insideShape (isCircle : ℤ) (diff : ℚ × ℚ) (halfSize : ℚ) : Bool :=
  if isCircle = 1 then
    decide (diff.1 * diff.1 + diff.2 * diff.2 ≤ halfSize * halfSize)
  else
    decide (|diff.1| ≤ halfSize) && decide (|diff.2| ≤ halfSize)

/-- One iteration of the DUST_SHADER candidate loop body
(cylinder.tsx lines 122-193).  `continue` paths become `none`; a `return`
becomes `some`. -/
def tryCell (ops : TrigOps) (cfg : DustConfig) (env : DustEnv)
    (screenCoord : ℚ × ℚ) (t : ℚ) (baseImgPos : ℚ × ℚ)
    (off : ℤ × ℤ) : Option Color :=
  let ps := env.particleSize
  let halfSize := ps * 0.5
  let imgLocalPos := candidateLocal ps baseImgPos off
  if imgLocalPos.1 < 0 ∨ imgLocalPos.1 ≥ env.imageSize.1 ∨
      imgLocalPos.2 < 0 ∨ imgLocalPos.2 ≥ env.imageSize.2 then none
  else
    let cellId := cellIdOf ps imgLocalPos
    let cellCenter := (cellId.1 * ps + halfSize, cellId.2 * ps + halfSize)
    let h := hash ops (cellId.1 + env.seed, cellId.2 + env.seed)
    let rnd1 := h
    let rnd2 := Int.fract (h * 7.243)
    let rnd3 := Int.fract (h * 13.759)
    let maxLife := cfg.lifetimeMin + rnd1 * cfg.lifetimeRange
    let lifeFrac := t / maxLife
    if lifeFrac ≥ 1 then none
    else
      let movement := cellMovement ops cfg t rnd1 rnd2 rnd3 lifeFrac
      let particlePos := (env.imageOffset.1 + cellCenter.1 + movement.1,
                          env.imageOffset.2 + cellCenter.2 + movement.2)
      let diff := (screenCoord.1 - particlePos.1, screenCoord.2 - particlePos.2)
      if insideShape env.isCircle diff halfSize then
        let alpha := fadeAlpha cfg.fadeStart lifeFrac
        if alpha > 0.01 then
          let color := env.image cellCenter
          if color.a > 0.1 then
            some ⟨color.r, color.g, color.b, color.a * alpha⟩
          else none
        else none
      else none

/-- Search window indices `-SEARCH_RAD .. SEARCH_RAD` with `SEARCH_RAD = 4`
(cylinder.tsx line 101). -/
def searchIdx : List ℤ := [-4, -3, -2, -1, 0, 1, 2, 3, 4]

/-- Row-major enumeration: outer index `i` over the second list, inner index
`j` over `cols`, pairing as `(i, j)` exactly as the nested shader loops do. -/
def rowMajor (cols : List ℤ) : List ℤ → List (ℤ × ℤ)
  | [] => []
  | i :: is => cols.map (fun j => (i, j)) ++ rowMajor cols is

/-- The enumeration order of the DUST_SHADER double loop
(cylinder.tsx lines 120-121). -/
def searchOffsets : List (ℤ × ℤ) := rowMajor searchIdx searchIdx

/-- The `main` function of DUST_SHADER (cylinder.tsx lines 107-198). -/
def dustMain (ops : TrigOps) (cfg : DustConfig) (env : DustEnv)
    (fragCoord : ℚ × ℚ) : Color :=
  let screenCoord := (fragCoord.1 + env.canvasOffset.1,
                      fragCoord.2 + env.canvasOffset.2)
  let t := env.time * cfg.timeScale
  if t > cfg.maxTime then transparent
  else
    let reverseWindX := cfg.reverseWindMult * t
    let baseImgPos := (screenCoord.1 + reverseWindX - env.imageOffset.1,
                       screenCoord.2 - env.imageOffset.2)
    (searchOffsets.findSome?
      (tryCell ops cfg env screenCoord t baseImgPos)).getD transparent

/-!  Specification-side definitions (spec.md §4.2 and §4.3), written following
the specification's own formulas, to be compared with the code-side
definitions above. -/

/-- Spec §4.2 steps 4-9: the per-cell displacement written as the
specification states it: wind `-windSpeed·t·(0.7+0.6·h)` and
`(2·rnd2-1)·verticalSpread·t·(0.5+0.5·rnd3)`, turbulence with shared phase
`0.07t + 20·rnd3`, burst of magnitude `burstStrength/(1+5·lifeRatio)` along
`(cos θ, sin θ)` with `θ = 6.283·rnd3`, float with phase `0.05t + 10h`,
drift directions `(2h-1, 2rnd2-1)` with magnitude `drift·t²·0.01`, all summed
and multiplied by `startEase = min(lifeRatio·10, 1)`. -/
def specDisplacement (ops : TrigOps) (cfg : DustConfig)
    (t h rnd2 rnd3 lifeFrac : ℚ) : ℚ × ℚ :=
  let windX := -cfg.windSpeed * t * (0.7 + 0.6 * h)
  let windY := (2 * rnd2 - 1) * cfg.verticalSpread * t * (0.5 + 0.5 * rnd3)
  let turbX := ops.sin (0.07 * t + 20 * rnd3) * cfg.turbulence * h
  let turbY := ops.cos (0.07 * t + 20 * rnd3) * cfg.turbulence * rnd2
  let burstMag := cfg.burstStrength / (1 + 5 * lifeFrac)
  let burstX := ops.cos (6.283 * rnd3) * burstMag
  let burstY := ops.sin (6.283 * rnd3) * burstMag
  let floatX := ops.sin (0.05 * t + 10 * h) * (0.5 * cfg.floatAmp)
  let floatY := ops.cos (0.7 * (0.05 * t + 10 * h)) * cfg.floatAmp
  let driftXT := (2 * h - 1) * (cfg.driftX * (t * t) * 0.01)
  let driftYT := (2 * rnd2 - 1) * (cfg.driftY * (t * t) * 0.01)
  let startEase := min (lifeFrac * 10) 1
  ((windX + turbX + burstX + floatX + driftXT) * startEase,
   (windY + turbY + burstY + floatY + driftYT) * startEase)

/-- Spec §4.3 steps 4-5 for one candidate cell, stated declaratively: the
candidate is accepted iff its image-local position is inside `[0, imageSize)`,
it is non-expired (`lifeRatio < 1`), its displaced particle covers the pixel,
its fade alpha is above the 0.01 threshold and the source color at its rest
center has alpha above 0.1; an accepted candidate yields the rest-center
color with output alpha `source alpha × fade alpha`. -/
def specCandidate (ops : TrigOps) (cfg : DustConfig) (env : DustEnv)
    (screenCoord : ℚ × ℚ) (t : ℚ) (baseImgPos : ℚ × ℚ)
    (off : ℤ × ℤ) : Option Color :=
  let ps := env.particleSize
  let p := candidateLocal ps baseImgPos off
  let cell := cellIdOf ps p
  let cellCenter := (cell.1 * ps + ps * 0.5, cell.2 * ps + ps * 0.5)
  let h := hash ops (cell.1 + env.seed, cell.2 + env.seed)
  let rnd2 := Int.fract (h * 7.243)
  let rnd3 := Int.fract (h * 13.759)
  let lifeFrac := t / (cfg.lifetimeMin + h * cfg.lifetimeRange)
  let delta := specDisplacement ops cfg t h rnd2 rnd3 lifeFrac
  let center := (env.imageOffset.1 + cellCenter.1 + delta.1,
                 env.imageOffset.2 + cellCenter.2 + delta.2)
  let diff := (screenCoord.1 - center.1, screenCoord.2 - center.2)
  let color := env.image cellCenter
  if (0 ≤ p.1 ∧ p.1 < env.imageSize.1 ∧ 0 ≤ p.2 ∧ p.2 < env.imageSize.2) ∧
      lifeFrac < 1 ∧
      insideShape env.isCircle diff (ps * 0.5) = true ∧
      fadeAlpha cfg.fadeStart lifeFrac > 0.01 ∧
      color.a > 0.1 then
    some ⟨color.r, color.g, color.b, color.a * fadeAlpha cfg.fadeStart lifeFrac⟩
  else none

/-- Spec §4.3: the field function as the specification describes it — global
cutoff, then a row-major scan of the bounded window returning the first
accepted candidate's color, else transparent. -/
def dustFieldSpec (ops : TrigOps) (cfg : DustConfig) (env : DustEnv)
    (fragCoord : ℚ × ℚ) : Color :=
  let screenCoord := (fragCoord.1 + env.canvasOffset.1,
                      fragCoord.2 + env.canvasOffset.2)
  let t := env.time * cfg.timeScale
  if t > cfg.maxTime then transparent
  else
    let baseImgPos := (screenCoord.1 + cfg.reverseWindMult * t - env.imageOffset.1,
                       screenCoord.2 - env.imageOffset.2)
    (searchOffsets.findSome?
      (specCandidate ops cfg env screenCoord t baseImgPos)).getD transparent

/-! Helper lemmas. -/

theorem cellMovement_eq_specDisplacement (ops : TrigOps) (cfg : DustConfig)
    (t h rnd2 rnd3 lifeFrac : ℚ) :
    cellMovement ops cfg t h rnd2 rnd3 lifeFrac =
      specDisplacement ops cfg t h rnd2 rnd3 lifeFrac := by
  simp only [cellMovement, specDisplacement]
  rw [show (t * 0.07 + rnd3 * 20.0 : ℚ) = 0.07 * t + 20 * rnd3 by ring,
    show (rnd3 * 6.283 : ℚ) = 6.283 * rnd3 by ring,
    show (t * 0.05 + h * 10.0 : ℚ) = 0.05 * t + 10 * h by ring,
    show (min (lifeFrac * 10.0) 1.0 : ℚ) = min (lifeFrac * 10) 1 by norm_num]
  rw [show ((0.05 * t + 10 * h) * 0.7 : ℚ) = 0.7 * (0.05 * t + 10 * h) by ring]
  refine Prod.ext ?_ ?_ <;> simp only <;> ring

theorem guard_chain {α : Type} {A A2 B B2 C D E : Prop}
    [Decidable A] [Decidable A2] [Decidable B] [Decidable B2] [Decidable C]
    [Decidable D] [Decidable E] (r : α) (hA : A ↔ ¬A2) (hB : B ↔ ¬B2) :
    (if A then (none : Option α) else if B then none
      else if C then if D then if E then some r else none else none else none)
    = if A2 ∧ B2 ∧ C ∧ D ∧ E then some r else none := by
  split_ifs <;> tauto

theorem tryCell_eq_specCandidate (ops : TrigOps) (cfg : DustConfig)
    (env : DustEnv) (sc : ℚ × ℚ) (t : ℚ) (b : ℚ × ℚ) (off : ℤ × ℤ) :
    tryCell ops cfg env sc t b off = specCandidate ops cfg env sc t b off := by
  simp only [tryCell, specCandidate, cellMovement_eq_specDisplacement]
  refine guard_chain _ ?_ ?_
  · simp only [not_and_or, not_lt, not_le, ge_iff_le]
    try tauto
  · simp only [ge_iff_le, not_lt]

theorem findSome_congrPointwise {α β : Type} (f g : α → Option β)
    (h : ∀ x, f x = g x) : ∀ l : List α, l.findSome? f = l.findSome? g
  | [] => rfl
  | a :: as => by
    rw [List.findSome?_cons, List.findSome?_cons, h a,
      findSome_congrPointwise f g h as]

theorem findSome_eq_none_of_all {α β : Type} (f : α → Option β)
    (l : List α) (h : ∀ x ∈ l, f x = none) : l.findSome? f = none := by
  induction l with
  | nil => rfl
  | cons a as ih =>
    rw [List.findSome?_cons, h a (List.mem_cons_self a as)]
    exact ih fun x hx => h x (List.mem_cons_of_mem a hx)

theorem findSome_eq_of_unique {α β : Type} [DecidableEq α] (f : α → Option β)
    (l : List α) (x : α) (v : β) (hmem : x ∈ l) (hx : f x = some v)
    (hothers : ∀ y ∈ l, y ≠ x → f y = none) : l.findSome? f = some v := by
  induction l with
  | nil => cases hmem
  | cons a as ih =>
    rw [List.findSome?_cons]
    by_cases ha : a = x
    · rw [ha, hx]
    · rw [hothers a (List.mem_cons_self a as) ha]
      have hmem2 : x ∈ as := by
        rcases List.mem_cons.mp hmem with h1 | h1
        · exact absurd h1.symm ha
        · exact h1
      exact ih hmem2 fun y hy => hothers y (List.mem_cons_of_mem a hy)

/-- The refined shader's main function coincides everywhere with the
declarative first-match field function of spec §4.3. -/
theorem dustMain_eq_dustFieldSpec (ops : TrigOps) (cfg : DustConfig)
    (env : DustEnv) (fragCoord : ℚ × ℚ) :
    dustMain ops cfg env fragCoord = dustFieldSpec ops cfg env fragCoord := by
  simp only [dustMain, dustFieldSpec]
  by_cases hc : env.time * cfg.timeScale > cfg.maxTime
  · rw [if_pos hc, if_pos hc]
  · rw [if_neg hc, if_neg hc,
      findSome_congrPointwise _ _ (tryCell_eq_specCandidate ops cfg env _ _ _)]

/-! Claim C2. -/

/-- C2: for every cell and elapsed time `t`, the cell's displacement computed
by the shader equals the spec §4.2 sum of the wind term
(`windX = -windSpeed·t·(0.7+0.6·h)`, `windY = (2·rnd2-1)·verticalSpread·t·
(0.5+0.5·rnd3)`), the turbulence, burst, float and drift terms, multiplied by
`startEase = min(lifeRatio·10, 1)`.  The current particle center being
`imageOffset + cellCenterInImage + displacement` is the `particlePos`
expression of `tryCell` and of the spec field function proved identical in
C1. -/
theorem dustC2_displacement_formula (ops : TrigOps) (cfg : DustConfig)
    (t h rnd2 rnd3 lifeFrac : ℚ) :
    cellMovement ops cfg t h rnd2 rnd3 lifeFrac =
      specDisplacement ops cfg t h rnd2 rnd3 lifeFrac :=
  cellMovement_eq_specDisplacement ops cfg t h rnd2 rnd3 lifeFrac

/-!  The earlier shader variant: DUST_SNAP_SHADER of the unnamed source file
(BlowAwayImage component).  Its time scale (60) and cutoff (180) are
hardcoded, its hash is gcd-free arithmetic, and its fade uses `pow`. -/

/-- The uniforms of DUST_SNAP_SHADER (unnamed file lines 32-38). -/
structure SnapEnv where
  image : ℚ × ℚ → Color
  time : ℚ
  imageSize : ℚ × ℚ
  imageOffset : ℚ × ℚ
  canvasSize : ℚ × ℚ
  particleSize : ℚ
  seed : ℚ

/-- The `hash` function of DUST_SNAP_SHADER (unnamed file lines 40-44):
`p3 = fract(float3(p.xyx) * 0.1031); p3 += dot(p3, p3.yzx + 33.33);
return fract((p3.x + p3.y) * p3.z)`. -/
def snapHash (p : ℚ × ℚ) : ℚ :=
  let a := Int.fract (p.1 * 0.1031)
  let b := Int.fract (p.2 * 0.1031)
  let c := Int.fract (p.1 * 0.1031)
  let d := a * (b + 33.33) + b * (c + 33.33) + c * (a + 33.33)
  Int.fract ((a + d + (b + d)) * (c + d))

/-- Fade alpha of DUST_SNAP_SHADER (unnamed file lines 110-113): 1 up to
`lifeRatio = 0.3`, then `pow(1 - (lifeRatio - 0.3)/0.7, 1.5)`. -/
def snapFade (ops : TrigOps) (lifeFrac : ℚ) : ℚ :=
  if lifeFrac > 0.3 then ops.pow (1.0 - (lifeFrac - 0.3) / 0.7) 1.5 else 1

/-- One iteration of the DUST_SNAP_SHADER candidate loop body (unnamed file
lines 69-122).  Note there is no source-alpha test: a covering, live
candidate with fade alpha above 0.01 returns its color unconditionally. -/
def snapTry (ops : TrigOps) (env : SnapEnv) (fragCoord : ℚ × ℚ) (t : ℚ)
    (baseImgPos : ℚ × ℚ) (off : ℤ × ℤ) : Option Color :=
  let ps := env.particleSize
  let imgLocalPos := candidateLocal ps baseImgPos off
  if imgLocalPos.1 < 0 ∨ imgLocalPos.1 ≥ env.imageSize.1 ∨
      imgLocalPos.2 < 0 ∨ imgLocalPos.2 ≥ env.imageSize.2 then none
  else
    let cellId := (((⌊imgLocalPos.1 / ps⌋ : ℤ) : ℚ), ((⌊imgLocalPos.2 / ps⌋ : ℤ) : ℚ))
    let cellCenter := (cellId.1 * ps + ps * 0.5, cellId.2 * ps + ps * 0.5)
    let rndSeed := snapHash (cellId.1 + env.seed, cellId.2 + env.seed)
    let maxLife := 60.0 + rndSeed * 60.0
    let lifeFrac := t / maxLife
    if lifeFrac ≥ 1 then none
    else
      let windSpeed := 10.0 + rndSeed * 4.0
      let windX := -windSpeed * t - t * t * 0.02
      let wave := ops.sin (t * 0.12 + rndSeed * 15.0) * 6.0
      let lift := (-1.0 + (rndSeed - 0.5) * 2.5) * t
      let windY := lift + wave
      let particlePos := (env.imageOffset.1 + cellCenter.1 + windX,
                          env.imageOffset.2 + cellCenter.2 + windY)
      let halfSize := ps * 0.5
      let diff := (fragCoord.1 - particlePos.1, fragCoord.2 - particlePos.2)
      if |diff.1| ≤ halfSize ∧ |diff.2| ≤ halfSize then
        let alpha := snapFade ops lifeFrac
        if alpha > 0.01 then
          let color := env.image cellCenter
          some ⟨color.r, color.g, color.b, color.a * alpha⟩
        else none
      else none

/-- Snap search indices: `i` spans `-MAX_SEARCH_X .. MAX_SEARCH_X = ±8`
(unnamed file line 66). -/
def snapIdxX : List ℤ := [-8, -7, -6, -5, -4, -3, -2, -1, 0, 1, 2, 3, 4, 5, 6, 7, 8]

/-- Snap search indices: `j` spans `-MAX_SEARCH_Y .. MAX_SEARCH_Y = ±5`
(unnamed file line 67). -/
def snapIdxY : List ℤ := [-5, -4, -3, -2, -1, 0, 1, 2, 3, 4, 5]

/-- The enumeration order of the DUST_SNAP_SHADER double loop (unnamed file
lines 69-70): outer `i` over X, inner `j` over Y. -/
def snapOffsets : List (ℤ × ℤ) := rowMajor snapIdxY snapIdxX

/-- The `main` function of DUST_SNAP_SHADER (unnamed file lines 46-125): `t = time * 60`
(frames) and the global cutoff is `t > 180`. -/
def snapMain (ops : TrigOps) (env : SnapEnv) (fragCoord : ℚ × ℚ) : Color :=
  let t := env.time * 60.0
  if t > 180.0 then transparent
  else
    let reverseWindX := 12.0 * t + t * t * 0.02
    let reverseWindY := 1.5 * t
    let estimatedSource := (fragCoord.1 + reverseWindX, fragCoord.2 + reverseWindY)
    let baseImgPos := (estimatedSource.1 - env.imageOffset.1,
                       estimatedSource.2 - env.imageOffset.2)
    (snapOffsets.findSome?
      (snapTry ops env fragCoord t baseImgPos)).getD transparent

/-- The first-match acceptance of the earlier DUST_SNAP_SHADER, stated
declaratively: a candidate is accepted iff its image-local position is inside
`[0, imageSize)`, it is non-expired, and its displaced particle (square shape)
covers the pixel with fade alpha above 0.01 — with NO source-alpha condition;
an accepted candidate yields the rest-center color with output alpha
`source alpha × fade alpha`, whatever the source alpha is. -/
def snapCandidateSpec (ops : TrigOps) (env : SnapEnv) (fragCoord : ℚ × ℚ)
    (t : ℚ) (baseImgPos : ℚ × ℚ) (off : ℤ × ℤ) : Option Color :=
  let ps := env.particleSize
  let p := candidateLocal ps baseImgPos off
  let cell := (((⌊p.1 / ps⌋ : ℤ) : ℚ), ((⌊p.2 / ps⌋ : ℤ) : ℚ))
  let cellCenter := (cell.1 * ps + ps * 0.5, cell.2 * ps + ps * 0.5)
  let rndSeed := snapHash (cell.1 + env.seed, cell.2 + env.seed)
  let lifeFrac := t / (60.0 + rndSeed * 60.0)
  let windX := -(10.0 + rndSeed * 4.0) * t - t * t * 0.02
  let windY := (-1.0 + (rndSeed - 0.5) * 2.5) * t +
    ops.sin (t * 0.12 + rndSeed * 15.0) * 6.0
  let diff := (fragCoord.1 - (env.imageOffset.1 + cellCenter.1 + windX),
               fragCoord.2 - (env.imageOffset.2 + cellCenter.2 + windY))
  let color := env.image cellCenter
  if (0 ≤ p.1 ∧ p.1 < env.imageSize.1 ∧ 0 ≤ p.2 ∧ p.2 < env.imageSize.2) ∧
      lifeFrac < 1 ∧
      (|diff.1| ≤ ps * 0.5 ∧ |diff.2| ≤ ps * 0.5) ∧
      snapFade ops lifeFrac > 0.01 then
    some ⟨color.r, color.g, color.b, color.a * snapFade ops lifeFrac⟩
  else none

/-- The earlier shader's field function as a declarative first-match scan:
global cutoff, then the row-major window returning the first accepted
candidate's color, else transparent. -/
def snapFieldSpec (ops : TrigOps) (env : SnapEnv) (fragCoord : ℚ × ℚ) : Color :=
  let t := env.time * 60.0
  if t > 180.0 then transparent
  else
    let baseImgPos := (fragCoord.1 + (12.0 * t + t * t * 0.02) - env.imageOffset.1,
                       fragCoord.2 + 1.5 * t - env.imageOffset.2)
    (snapOffsets.findSome?
      (snapCandidateSpec ops env fragCoord t baseImgPos)).getD transparent

theorem guard_chain4 {α : Type} {A A2 B B2 C D : Prop}
    [Decidable A] [Decidable A2] [Decidable B] [Decidable B2] [Decidable C]
    [Decidable D] (r : α) (hA : A ↔ ¬A2) (hB : B ↔ ¬B2) :
    (if A then (none : Option α) else if B then none
      else if C then if D then some r else none else none)
    = if A2 ∧ B2 ∧ C ∧ D then some r else none := by
  split_ifs <;> tauto

theorem snapTry_eq_snapCandidateSpec (ops : TrigOps) (env : SnapEnv)
    (frag : ℚ × ℚ) (t : ℚ) (bp : ℚ × ℚ) (off : ℤ × ℤ) :
    snapTry ops env frag t bp off = snapCandidateSpec ops env frag t bp off := by
  simp only [snapTry, snapCandidateSpec]
  refine guard_chain4 _ ?_ ?_
  · simp only [not_and_or, not_lt, not_le, ge_iff_le]
    try tauto
  · simp only [ge_iff_le, not_lt]

/-- The earlier shader's main function coincides everywhere with its
declarative first-match field function. -/
theorem snapMain_eq_snapFieldSpec (ops : TrigOps) (env : SnapEnv)
    (frag : ℚ × ℚ) : snapMain ops env frag = snapFieldSpec ops env frag := by
  simp only [snapMain, snapFieldSpec]
  by_cases hc : env.time * 60.0 > 180.0
  · rw [if_pos hc, if_pos hc]
  · rw [if_neg hc, if_neg hc,
      findSome_congrPointwise _ _ (snapTry_eq_snapCandidateSpec ops env _ _ _)]

/-! Claim C1. -/

/-- A concrete environment for the earlier shader with uniform source alpha
`1/20 = 0.05`, below the 0.1 threshold of the claimed acceptance predicate. -/
def c1SnapEnv : SnapEnv :=
  { image := fun _ => ⟨1, 0, 0, 1/20⟩
    time := 0
    imageSize := (10, 10)
    imageOffset := (0, 0)
    canvasSize := (100, 100)
    particleSize := 2
    seed := 0 }

set_option maxHeartbeats 4000000 in
/-- Counterexample to C1 as stated for the cited DUST_SNAP_SHADER variant:
at the pixel `(1, 1)` (a rest cell center, covered by its own candidate at
`t = 0`) the snap shader returns the visible color `(1, 0, 0, 1/20)` even
though the candidate's rest-center source alpha is `1/20 ≤ 0.1` — under the
claim's predicate, which requires source alpha `> 0.1`, no candidate of this
uniformly low-alpha image qualifies anywhere, so the claimed field function
would return transparent instead. -/
theorem dustC1_counterexample :
    snapMain zeroOps c1SnapEnv (1, 1) = ⟨1, 0, 0, 1/20⟩ ∧
    (c1SnapEnv.image (1, 1)).a = 1/20 ∧
    ¬ ((1/20 : ℚ) > 0.1) ∧
    (⟨1, 0, 0, 1/20⟩ : Color) ≠ transparent := by
  refine ⟨?_, rfl, by norm_num, ?_⟩
  · norm_num [snapMain, c1SnapEnv, snapOffsets, snapIdxX, snapIdxY, rowMajor,
      snapTry, candidateLocal, snapHash, snapFade, zeroOps, Int.fract,
      List.findSome?, transparent]
  · intro hcon
    have := congrArg Color.a hcon
    norm_num [transparent] at this

/-- C1 amended: both field functions scan their bounded candidate window in
the fixed row-major order of their nested loops and return on the first
accepted candidate, ignoring all later ones, with the rest-center color and
output alpha equal to source alpha times the fade alpha.  For the refined
DUST_SHADER the acceptance predicate is exactly the claimed one (in-bounds,
non-expired, covering, fade alpha > 0.01, source alpha > 0.1).  For the
earlier DUST_SNAP_SHADER the predicate has no source-alpha condition: the
first in-bounds, non-expired, covering candidate with fade alpha above 0.01
wins regardless of its source alpha. -/
theorem dustC1_first_match_amended :
    (∀ (ops : TrigOps) (cfg : DustConfig) (env : DustEnv) (frag : ℚ × ℚ),
      dustMain ops cfg env frag = dustFieldSpec ops cfg env frag) ∧
    (∀ (ops : TrigOps) (env : SnapEnv) (frag : ℚ × ℚ),
      snapMain ops env frag = snapFieldSpec ops env frag) :=
  ⟨dustMain_eq_dustFieldSpec, snapMain_eq_snapFieldSpec⟩

/-! Claim C3. -/

/-- C3: both field functions return the fully transparent color whenever
`time · timeScale > maxTime`, for every pixel, image, placement, seed and
configuration, regardless of any per-cell lifetime.  For the refined shader
`timeScale` and `maxTime` are uniforms; for the earlier shader they are the
hardcoded 60 and 180. -/
theorem dustC3_global_cutoff :
    (∀ (ops : TrigOps) (cfg : DustConfig) (env : DustEnv) (fragCoord : ℚ × ℚ),
      env.time * cfg.timeScale > cfg.maxTime →
      dustMain ops cfg env fragCoord = transparent) ∧
    (∀ (ops : TrigOps) (env : SnapEnv) (fragCoord : ℚ × ℚ),
      env.time * 60.0 > 180.0 →
      snapMain ops env fragCoord = transparent) := by
  constructor
  · intro ops cfg env fragCoord ht
    simp only [dustMain]
    rw [if_pos ht]
  · intro ops env fragCoord ht
    simp only [snapMain]
    rw [if_pos ht]

/-- A concrete environment whose time exceeds the refined shader's global
cutoff: `20 × 22 = 440 > 250`. -/
def c3DustEnv : DustEnv :=
  { image := fun _ => ⟨1, 0, 0, 1⟩
    time := 20
    imageSize := (10, 10)
    imageOffset := (0, 0)
    canvasOffset := (0, 0)
    particleSize := 2
    seed := 0
    isCircle := 1 }

/-- A concrete environment whose time exceeds the earlier shader's global
cutoff: `4 × 60 = 240 > 180`. -/
def c3SnapEnv : SnapEnv :=
  { image := fun _ => ⟨1, 0, 0, 1⟩
    time := 4
    imageSize := (10, 10)
    imageOffset := (0, 0)
    canvasSize := (100, 100)
    particleSize := 2
    seed := 0 }

/-- Witness for C3 at concrete inputs past the cutoff. -/
theorem dustC3_witness :
    dustMain zeroOps ANIMATION_CONFIG c3DustEnv (5, 5) = transparent ∧
    snapMain zeroOps c3SnapEnv (5, 5) = transparent :=
  ⟨dustC3_global_cutoff.1 zeroOps ANIMATION_CONFIG c3DustEnv (5, 5)
      (by norm_num [c3DustEnv, ANIMATION_CONFIG]),
   dustC3_global_cutoff.2 zeroOps c3SnapEnv (5, 5)
      (by norm_num [c3SnapEnv])⟩

/-! Claim C5. -/

/-- C5: for any fixed cell, with `lifetimeMin > 0` and `lifetimeRange ≥ 0`,
the cell's maximum lifetime is positive (the division is well defined), the
life ratio `t / maxLife` is non-decreasing in `t`, and once the life ratio
reaches 1 at time `t`, the candidate for that cell yields no color at any
pixel for every later time `t2 > t`. -/
theorem dustC5_monotonic_expiry (ops : TrigOps) (cfg : DustConfig)
    (cellSeed : ℚ × ℚ) (hmin : 0 < cfg.lifetimeMin)
    (hrange : 0 ≤ cfg.lifetimeRange) :
    0 < cfg.lifetimeMin + hash ops cellSeed * cfg.lifetimeRange ∧
    (∀ t t2 : ℚ, t ≤ t2 →
      t / (cfg.lifetimeMin + hash ops cellSeed * cfg.lifetimeRange) ≤
        t2 / (cfg.lifetimeMin + hash ops cellSeed * cfg.lifetimeRange)) ∧
    (∀ t t2 : ℚ,
      1 ≤ t / (cfg.lifetimeMin + hash ops cellSeed * cfg.lifetimeRange) →
      t < t2 →
      ∀ (env : DustEnv) (sc bp : ℚ × ℚ) (off : ℤ × ℤ),
        (cellIdOf env.particleSize (candidateLocal env.particleSize bp off)).1
            + env.seed = cellSeed.1 →
        (cellIdOf env.particleSize (candidateLocal env.particleSize bp off)).2
            + env.seed = cellSeed.2 →
        tryCell ops cfg env sc t2 bp off = none) := by
  have hh : 0 ≤ hash ops cellSeed := Int.fract_nonneg _
  have hml : 0 < cfg.lifetimeMin + hash ops cellSeed * cfg.lifetimeRange := by
    have := mul_nonneg hh hrange
    linarith
  refine ⟨hml, ?_, ?_⟩
  · intro t t2 ht
    exact (div_le_div_iff_of_pos_right hml).mpr ht
  · intro t t2 h1 h12 env sc bp off hc1 hc2
    rw [tryCell_eq_specCandidate]
    simp only [specCandidate]
    have hpair :
        ((cellIdOf env.particleSize (candidateLocal env.particleSize bp off)).1
            + env.seed,
         (cellIdOf env.particleSize (candidateLocal env.particleSize bp off)).2
            + env.seed) = cellSeed := Prod.ext hc1 hc2
    rw [hpair, if_neg]
    rintro ⟨-, hlf, -⟩
    have hmlle : cfg.lifetimeMin + hash ops cellSeed * cfg.lifetimeRange ≤ t :=
      (one_le_div hml).mp h1
    have : (1 : ℚ) <
        t2 / (cfg.lifetimeMin + hash ops cellSeed * cfg.lifetimeRange) :=
      (one_lt_div hml).mpr (by linarith)
    linarith

/-- Witness for C5 with the shipped configuration at the cell hashed from
`(0, 0)`. -/
theorem dustC5_witness :
    (0 : ℚ) <
      ANIMATION_CONFIG.lifetimeMin +
        hash zeroOps (0, 0) * ANIMATION_CONFIG.lifetimeRange :=
  (dustC5_monotonic_expiry zeroOps ANIMATION_CONFIG (0, 0)
    (by norm_num [ANIMATION_CONFIG]) (by norm_num [ANIMATION_CONFIG])).1

/-! Claim C6. -/

/-- C6: the per-cell fade alpha equals 1 for `lifeRatio ≤ fadeStart`, equals
`(1 - (lifeRatio - fadeStart)/(1 - fadeStart))²` above `fadeStart`, takes the
value 1 at `lifeRatio = fadeStart` and 0 at `lifeRatio = 1`, and is
monotonically non-increasing on `[fadeStart, 1]` (for any fade-start
threshold below 1). -/
theorem dustC6_fade_bounds (fs : ℚ) (hfs : fs < 1) :
    (∀ lf : ℚ, lf ≤ fs → fadeAlpha fs lf = 1) ∧
    (∀ lf : ℚ, fs < lf → fadeAlpha fs lf = (1 - (lf - fs) / (1 - fs)) ^ 2) ∧
    fadeAlpha fs fs = 1 ∧
    fadeAlpha fs 1 = 0 ∧
    (∀ a b : ℚ, fs ≤ a → a ≤ b → b ≤ 1 → fadeAlpha fs b ≤ fadeAlpha fs a) := by
  have h1fs : 0 < 1 - fs := by linarith
  have key : ∀ x : ℚ, fs ≤ x →
      fadeAlpha fs x = (1 - (x - fs) / (1 - fs)) * (1 - (x - fs) / (1 - fs)) := by
    intro x hx
    rcases eq_or_lt_of_le hx with h | h
    · rw [fadeAlpha, if_neg (by rw [← h]; exact lt_irrefl fs), ← h]
      simp
    · rw [fadeAlpha, if_pos h]
  refine ⟨?_, ?_, ?_, ?_, ?_⟩
  · intro lf hlf
    rw [fadeAlpha, if_neg (not_lt.mpr hlf)]
    norm_num
  · intro lf hlf
    rw [fadeAlpha, if_pos hlf, pow_two]
  · rw [fadeAlpha, if_neg (lt_irrefl fs)]
    norm_num
  · rw [key 1 (le_of_lt hfs), div_self (ne_of_gt h1fs)]
    ring
  · intro a b ha hab hb1
    rw [key a ha, key b (le_trans ha hab)]
    have hga0 : 0 ≤ 1 - (a - fs) / (1 - fs) := by
      have hle : (a - fs) / (1 - fs) ≤ 1 :=
        (div_le_one h1fs).mpr (by linarith)
      linarith
    have hgb0 : 0 ≤ 1 - (b - fs) / (1 - fs) := by
      have hle : (b - fs) / (1 - fs) ≤ 1 :=
        (div_le_one h1fs).mpr (by linarith)
      linarith
    have hgba : 1 - (b - fs) / (1 - fs) ≤ 1 - (a - fs) / (1 - fs) := by
      have hdiv : (a - fs) / (1 - fs) ≤ (b - fs) / (1 - fs) :=
        (div_le_div_iff_of_pos_right h1fs).mpr (by linarith)
      linarith
    exact mul_le_mul hgba hgba hgb0 hga0

/-- Witness for C6 at the shipped fade-start 0.92: value 1 at the threshold
and 0 at end of life. -/
theorem dustC6_witness :
    fadeAlpha ANIMATION_CONFIG.fadeStart ANIMATION_CONFIG.fadeStart = 1 ∧
    fadeAlpha ANIMATION_CONFIG.fadeStart 1 = 0 :=
  ⟨(dustC6_fade_bounds ANIMATION_CONFIG.fadeStart
      (by norm_num [ANIMATION_CONFIG])).2.2.1,
   (dustC6_fade_bounds ANIMATION_CONFIG.fadeStart
      (by norm_num [ANIMATION_CONFIG])).2.2.2.1⟩

/-! Claim C7. -/

/-- C7: a candidate cell whose image-local position falls outside
`[0, imageSize)` is rejected (yields nothing) — in the shader the `continue`
happens before any motion is computed, which the embedding mirrors by the
bounds guard being the outermost branch of `tryCell`; consequently, for a
degenerate placement with zero (or negative) width or height, every candidate
is rejected for every pixel and time, and the field function returns fully
transparent everywhere rather than faulting. -/
theorem dustC7_bounds_reject :
    (∀ (ops : TrigOps) (cfg : DustConfig) (env : DustEnv) (sc : ℚ × ℚ)
        (t : ℚ) (bp : ℚ × ℚ) (off : ℤ × ℤ),
      ((candidateLocal env.particleSize bp off).1 < 0 ∨
       (candidateLocal env.particleSize bp off).1 ≥ env.imageSize.1 ∨
       (candidateLocal env.particleSize bp off).2 < 0 ∨
       (candidateLocal env.particleSize bp off).2 ≥ env.imageSize.2) →
      tryCell ops cfg env sc t bp off = none) ∧
    (∀ (ops : TrigOps) (cfg : DustConfig) (env : DustEnv) (frag : ℚ × ℚ),
      env.imageSize.1 ≤ 0 ∨ env.imageSize.2 ≤ 0 →
      dustMain ops cfg env frag = transparent) := by
  have hrej : ∀ (ops : TrigOps) (cfg : DustConfig) (env : DustEnv)
      (sc : ℚ × ℚ) (t : ℚ) (bp : ℚ × ℚ) (off : ℤ × ℤ),
      ((candidateLocal env.particleSize bp off).1 < 0 ∨
       (candidateLocal env.particleSize bp off).1 ≥ env.imageSize.1 ∨
       (candidateLocal env.particleSize bp off).2 < 0 ∨
       (candidateLocal env.particleSize bp off).2 ≥ env.imageSize.2) →
      tryCell ops cfg env sc t bp off = none := by
    intro ops cfg env sc t bp off h
    simp only [tryCell]
    rw [if_pos h]
  refine ⟨hrej, ?_⟩
  intro ops cfg env frag hdeg
  simp only [dustMain]
  by_cases hc : env.time * cfg.timeScale > cfg.maxTime
  · rw [if_pos hc]
  · rw [if_neg hc]
    have hall : ∀ off ∈ searchOffsets,
        tryCell ops cfg env
          (frag.1 + env.canvasOffset.1, frag.2 + env.canvasOffset.2)
          (env.time * cfg.timeScale)
          (frag.1 + env.canvasOffset.1 +
              cfg.reverseWindMult * (env.time * cfg.timeScale) -
            env.imageOffset.1,
           frag.2 + env.canvasOffset.2 - env.imageOffset.2) off = none := by
      intro off hoff
      apply hrej
      rcases hdeg with hw | hh
      · rcases lt_or_le (candidateLocal env.particleSize _ off).1 0 with hx | hx
        · exact Or.inl hx
        · exact Or.inr (Or.inl (le_trans hw hx))
      · rcases lt_or_le (candidateLocal env.particleSize _ off).2 0 with hy | hy
        · exact Or.inr (Or.inr (Or.inl hy))
        · exact Or.inr (Or.inr (Or.inr (le_trans hh hy)))
    rw [findSome_eq_none_of_all _ _ hall]
    rfl

/-- A degenerate placement: zero width. -/
def degenerateEnv : DustEnv :=
  { image := fun _ => ⟨1, 0, 0, 1⟩
    time := 0
    imageSize := (0, 120)
    imageOffset := (30, 40)
    canvasOffset := (0, 0)
    particleSize := 3
    seed := 7
    isCircle := 0 }

/-- Witness for C7: with a zero-width placement the field function is
transparent at a concrete pixel. -/
theorem dustC7_witness :
    dustMain zeroOps ANIMATION_CONFIG degenerateEnv (35, 45) = transparent :=
  dustC7_bounds_reject.2 zeroOps ANIMATION_CONFIG degenerateEnv (35, 45)
    (Or.inl (by norm_num [degenerateEnv]))

/-! Helper lemmas for time zero (claim C4). -/

theorem cellMovement_zero (ops : TrigOps) (cfg : DustConfig) (h r2 r3 : ℚ) :
    cellMovement ops cfg 0 h r2 r3 0 = (0, 0) := by
  simp only [cellMovement]
  norm_num

theorem specDisplacement_zero (ops : TrigOps) (cfg : DustConfig) (h r2 r3 : ℚ) :
    specDisplacement ops cfg 0 h r2 r3 0 = (0, 0) := by
  rw [← cellMovement_eq_specDisplacement]
  exact cellMovement_zero ops cfg h r2 r3

theorem candidateLocal_zero (ps : ℚ) (u : ℚ × ℚ) :
    candidateLocal ps u (0, 0) = u := by
  simp [candidateLocal]

theorem cellIdOf_shift (ps : ℚ) (hps : ps ≠ 0) (u : ℚ × ℚ) (off : ℤ × ℤ) :
    cellIdOf ps (candidateLocal ps u off) =
      ((cellIdOf ps u).1 + (off.1 : ℚ), (cellIdOf ps u).2 + (off.2 : ℚ)) := by
  simp only [cellIdOf, candidateLocal]
  have e1 : (u.1 + (off.1 : ℚ) * ps) * (1 / ps) = u.1 * (1 / ps) + (off.1 : ℚ) := by
    field_simp
  have e2 : (u.2 + (off.2 : ℚ) * ps) * (1 / ps) = u.2 * (1 / ps) + (off.2 : ℚ) := by
    field_simp
  rw [e1, e2, Int.floor_add_int, Int.floor_add_int]
  push_cast
  rfl

theorem lt_cellIdOf_succ (ps : ℚ) (hps : 0 < ps) (u : ℚ × ℚ) :
    u.1 < ((cellIdOf ps u).1 + 1) * ps ∧ u.2 < ((cellIdOf ps u).2 + 1) * ps := by
  constructor
  · have h1 := Int.lt_floor_add_one (u.1 * (1 / ps))
    simp only [cellIdOf]
    exact (div_lt_iff₀ hps).mp (by rw [← mul_one_div]; exact h1)
  · have h2 := Int.lt_floor_add_one (u.2 * (1 / ps))
    simp only [cellIdOf]
    exact (div_lt_iff₀ hps).mp (by rw [← mul_one_div]; exact h2)

theorem fadeAlpha_zero (fs : ℚ) (h : 0 ≤ fs) : fadeAlpha fs 0 = 1 := by
  simp only [fadeAlpha]
  rw [if_neg (not_lt.mpr h)]
  norm_num

theorem tryCell_zero_miss (ops : TrigOps) (cfg : DustConfig) (env : DustEnv)
    (sc u : ℚ × ℚ) (off : ℤ × ℤ)
    (hps : 0 < env.particleSize) (hsq : env.isCircle ≠ 1)
    (hu1 : u.1 = sc.1 - env.imageOffset.1) (hu2 : u.2 = sc.2 - env.imageOffset.2)
    (hfx : (cellIdOf env.particleSize u).1 * env.particleSize < u.1)
    (hfy : (cellIdOf env.particleSize u).2 * env.particleSize < u.2)
    (hoff : off ≠ ((0 : ℤ), (0 : ℤ))) :
    tryCell ops cfg env sc 0 u off = none := by
  rw [tryCell_eq_specCandidate]
  simp only [specCandidate, cellIdOf_shift env.particleSize (ne_of_gt hps) u off,
    zero_div, specDisplacement_zero, add_zero]
  apply if_neg
  rintro ⟨-, -, hin, -, -⟩
  simp only [insideShape, if_neg hsq, Bool.and_eq_true, decide_eq_true_eq] at hin
  obtain ⟨hin1, hin2⟩ := hin
  have habs1 := abs_le.mp hin1
  have habs2 := abs_le.mp hin2
  have hup := lt_cellIdOf_succ env.particleSize hps u
  have hoffcase : off.1 ≠ 0 ∨ off.2 ≠ 0 := by
    by_contra hcon
    push_neg at hcon
    exact hoff (Prod.ext hcon.1 hcon.2)
  rcases hoffcase with h1 | h2
  · rcases lt_or_gt_of_ne h1 with hneg | hpos
    · have hc : (off.1 : ℚ) ≤ -1 := by exact_mod_cast (by omega : off.1 ≤ -1)
      have hmul : (off.1 : ℚ) * env.particleSize ≤ -env.particleSize := by nlinarith
      exact absurd habs1.2 (by push_neg; nlinarith [habs1.1])
    · have hc : (1 : ℚ) ≤ (off.1 : ℚ) := by exact_mod_cast (by omega : 1 ≤ off.1)
      have hmul : env.particleSize ≤ (off.1 : ℚ) * env.particleSize := by nlinarith
      exact absurd habs1.1 (by push_neg; nlinarith [habs1.2, hup.1])
  · rcases lt_or_gt_of_ne h2 with hneg | hpos
    · have hc : (off.2 : ℚ) ≤ -1 := by exact_mod_cast (by omega : off.2 ≤ -1)
      have hmul : (off.2 : ℚ) * env.particleSize ≤ -env.particleSize := by nlinarith
      exact absurd habs2.2 (by push_neg; nlinarith [habs2.1])
    · have hc : (1 : ℚ) ≤ (off.2 : ℚ) := by exact_mod_cast (by omega : 1 ≤ off.2)
      have hmul : env.particleSize ≤ (off.2 : ℚ) * env.particleSize := by nlinarith
      exact absurd habs2.1 (by push_neg; nlinarith [habs2.2, hup.2])

theorem tryCell_zero_hit (ops : TrigOps) (cfg : DustConfig) (env : DustEnv)
    (sc u center : ℚ × ℚ)
    (hps : 0 < env.particleSize) (hsq : env.isCircle ≠ 1)
    (hfs : 0 ≤ cfg.fadeStart)
    (hu1 : u.1 = sc.1 - env.imageOffset.1) (hu2 : u.2 = sc.2 - env.imageOffset.2)
    (hb1 : 0 ≤ u.1) (hb2 : u.1 < env.imageSize.1)
    (hb3 : 0 ≤ u.2) (hb4 : u.2 < env.imageSize.2)
    (hfx : (cellIdOf env.particleSize u).1 * env.particleSize < u.1)
    (hfy : (cellIdOf env.particleSize u).2 * env.particleSize < u.2)
    (hcen : center =
      ((cellIdOf env.particleSize u).1 * env.particleSize + env.particleSize * 0.5,
       (cellIdOf env.particleSize u).2 * env.particleSize + env.particleSize * 0.5))
    (ha : (env.image center).a > 0.1) :
    tryCell ops cfg env sc 0 u ((0 : ℤ), (0 : ℤ)) =
      some ⟨(env.image center).r, (env.image center).g, (env.image center).b,
            (env.image center).a⟩ := by
  subst hcen
  rw [tryCell_eq_specCandidate]
  simp only [specCandidate, candidateLocal_zero, zero_div, specDisplacement_zero,
    add_zero]
  rw [fadeAlpha_zero cfg.fadeStart hfs]
  rw [if_pos]
  · rw [mul_one]
  · have hup := lt_cellIdOf_succ env.particleSize hps u
    refine ⟨⟨hb1, hb2, hb3, hb4⟩, by norm_num, ?_, by norm_num, ha⟩
    simp only [insideShape, if_neg hsq, Bool.and_eq_true, decide_eq_true_eq]
    constructor
    · rw [abs_le]
      constructor <;> nlinarith [hup.1]
    · rw [abs_le]
      constructor <;> nlinarith [hup.2]

/-! Claim C4. -/

/-- A concrete circular-particle environment at `t = 0`: opaque red image of
size 10×10 at offset 0, particle size 2, the shipped default shape
(`isCircle = 1`). -/
def c4Env : DustEnv :=
  { image := fun _ => ⟨1, 0, 0, 1⟩
    time := 0
    imageSize := (10, 10)
    imageOffset := (0, 0)
    canvasOffset := (0, 0)
    particleSize := 2
    seed := 0
    isCircle := 1 }

set_option maxHeartbeats 2000000 in
/-- Counterexample to C4 as stated: at `t = 0`, the pixel `(1.9, 1.9)` lies
inside the placement rectangle and its rest cell is inside the search window
(offset `(0,0)`), yet with circular particles no particle covers it — its
squared distance to every rest center exceeds `(particleSize/2)²` — so the
field function returns transparent instead of the image color `(1,0,0,1)`
sampled at the pixel's rest cell center `(1, 1)`. -/
theorem dustC4_counterexample :
    dustMain zeroOps ANIMATION_CONFIG c4Env (19/10, 19/10) = transparent ∧
    c4Env.image (1, 1) = ⟨1, 0, 0, 1⟩ ∧
    transparent ≠ (⟨1, 0, 0, 1⟩ : Color) := by
  refine ⟨?_, rfl, ?_⟩
  · norm_num [dustMain, ANIMATION_CONFIG, c4Env, searchOffsets, searchIdx,
      rowMajor, tryCell, candidateLocal, cellIdOf, hash, zeroOps, cellMovement,
      insideShape, fadeAlpha, Int.fract, List.findSome?, transparent]
  · intro hcon
    have := congrArg Color.a hcon
    norm_num [transparent] at this

/-- C4 amended: at `t = 0` every cell's displacement is zero (startEase(0)=0).
The whole-screen reconstruction holds for square particles away from the
degenerate boundaries: for every pixel inside the placement rectangle whose
image-local position lies strictly inside its grid cell, and whose cell's
rest-center source alpha exceeds the 0.1 threshold, the output at `t = 0` is
exactly the source color at the rest center (with `maxTime ≥ 0` and
`fadeStart ≥ 0`).  For circular particles pixels near cell corners are
covered by no particle at `t = 0` (see the counterexample), so the
reconstruction does not hold for every pixel. -/
theorem dustC4_time_zero_amended :
    (∀ (ops : TrigOps) (cfg : DustConfig) (h r2 r3 : ℚ),
      cellMovement ops cfg 0 h r2 r3 0 = (0, 0)) ∧
    (∀ (ops : TrigOps) (cfg : DustConfig) (env : DustEnv)
        (frag u center : ℚ × ℚ),
      env.time = 0 → 0 ≤ cfg.maxTime → 0 ≤ cfg.fadeStart →
      0 < env.particleSize → env.isCircle ≠ 1 →
      u = (frag.1 + env.canvasOffset.1 - env.imageOffset.1,
           frag.2 + env.canvasOffset.2 - env.imageOffset.2) →
      0 ≤ u.1 → u.1 < env.imageSize.1 → 0 ≤ u.2 → u.2 < env.imageSize.2 →
      (cellIdOf env.particleSize u).1 * env.particleSize < u.1 →
      (cellIdOf env.particleSize u).2 * env.particleSize < u.2 →
      center = ((cellIdOf env.particleSize u).1 * env.particleSize +
                  env.particleSize * 0.5,
                (cellIdOf env.particleSize u).2 * env.particleSize +
                  env.particleSize * 0.5) →
      (env.image center).a > 0.1 →
      dustMain ops cfg env frag =
        ⟨(env.image center).r, (env.image center).g, (env.image center).b,
         (env.image center).a⟩) := by
  refine ⟨cellMovement_zero, ?_⟩
  intro ops cfg env frag u center htime hmax hfs hps hsq hu hb1 hb2 hb3 hb4
    hfx hfy hcen ha
  simp only [dustMain, htime, zero_mul, mul_zero, add_zero]
  rw [if_neg (not_lt.mpr hmax), ← hu]
  rw [findSome_eq_of_unique _ searchOffsets ((0 : ℤ), (0 : ℤ)) _ (by decide)
    (tryCell_zero_hit ops cfg env _ u center hps hsq hfs (by simp [hu])
      (by simp [hu]) hb1 hb2 hb3 hb4 hfx hfy hcen ha)
    (fun y _ hyne => tryCell_zero_miss ops cfg env _ u y hps hsq (by simp [hu])
      (by simp [hu]) hfx hfy hyne)]
  rfl

/-- The square-particle variant of the counterexample environment. -/
def c4SqEnv : DustEnv :=
  { image := fun _ => ⟨1, 0, 0, 1⟩
    time := 0
    imageSize := (10, 10)
    imageOffset := (0, 0)
    canvasOffset := (0, 0)
    particleSize := 2
    seed := 0
    isCircle := 0 }

/-- Witness for the amended C4: with square particles the same pixel
`(1.9, 1.9)` reconstructs the source color at `t = 0`. -/
theorem dustC4_witness :
    dustMain zeroOps ANIMATION_CONFIG c4SqEnv (19/10, 19/10) = ⟨1, 0, 0, 1⟩ := by
  have h := dustC4_time_zero_amended.2 zeroOps ANIMATION_CONFIG c4SqEnv
    (19/10, 19/10) (19/10, 19/10) (1, 1)
    (by norm_num [c4SqEnv]) (by norm_num [ANIMATION_CONFIG])
    (by norm_num [ANIMATION_CONFIG]) (by norm_num [c4SqEnv])
    (by norm_num [c4SqEnv]) (by norm_num [c4SqEnv, Prod.ext_iff])
    (by norm_num) (by norm_num [c4SqEnv]) (by norm_num)
    (by norm_num [c4SqEnv]) (by norm_num [c4SqEnv, cellIdOf])
    (by norm_num [c4SqEnv, cellIdOf])
    (by norm_num [c4SqEnv, cellIdOf, Prod.ext_iff]) (by norm_num [c4SqEnv])
  simpa [c4SqEnv] using h

/-! Claim C8: how `particleSize` actually reaches the shaders. -/

/-- Per-frame uniforms derivation of `particleSize` in BlowAwayImage
(unnamed file line 219): `Math.max(2, particleSize)` inside the
`useDerivedValue` worklet evaluated every frame. -/
def blowAwayParticleSizeUniform (particleSize : ℚ) : ℚ := max 2 particleSize

/-- Per-frame uniforms derivation of `particleSize` in DustSnapGL
(cylinder.tsx line 333): `pieceSize` passed through unchanged, with no
validation anywhere. -/
def dustSnapParticleSizeUniform (pieceSize : ℚ) : ℚ := pieceSize

/-- Counterexample to C8: a configured particle size of 0 is not rejected
anywhere — DustSnapGL forwards it unchanged to the shader (so the per-frame
`1/particleSize` division is unprotected) while BlowAwayImage silently
adjusts it to 2 inside the per-frame uniforms derivation; neither variant
asserts `particleSize > 0` at configuration time. -/
theorem dustC8_counterexample :
    dustSnapParticleSizeUniform 0 = 0 ∧
    blowAwayParticleSizeUniform 0 = 2 ∧
    blowAwayParticleSizeUniform 0 ≠ 0 := by
  norm_num [dustSnapParticleSizeUniform, blowAwayParticleSizeUniform]

/-- C8 amended: no `particleSize > 0` assertion exists at configuration time.
DustSnapGL passes `pieceSize` to the shader unvalidated; BlowAwayImage clamps
`particleSize` to at least 2 inside the per-frame uniforms derivation, so a
non-positive configured size is silently adjusted per frame rather than
failing fast. -/
theorem dustC8_uniform_behavior :
    ∀ p : ℚ, dustSnapParticleSizeUniform p = p ∧
      blowAwayParticleSizeUniform p = max 2 p ∧
      2 ≤ blowAwayParticleSizeUniform p ∧
      (p ≤ 0 → blowAwayParticleSizeUniform p = 2) := by
  intro p
  refine ⟨rfl, rfl, le_max_left 2 p, fun hp => ?_⟩
  exact max_eq_left (by linarith)

/-- Witness for the amended C8: the silent per-frame adjustment at the
invalid configured size 0. -/
theorem dustC8_witness : blowAwayParticleSizeUniform 0 = 2 :=
  (dustC8_uniform_behavior 0).2.2.2 (by norm_num)

/-! Claim C9: the animation driver. -/

/-- The driver's time ramp (cylinder.tsx lines 289-293): on trigger,
`animationTime` is reset to 0 and driven by
`withTiming(duration / 1000, { duration, easing: Easing.linear })`; as a
function of elapsed wall-clock milliseconds this is the linear interpolation
from 0 to `duration/1000` over `[0, duration]`, constant afterwards. -/
def rampTime (durationMs elapsedMs : ℚ) : ℚ :=
  if elapsedMs ≤ 0 then 0
  else if durationMs ≤ elapsedMs then durationMs / 1000
  else durationMs / 1000 * (elapsedMs / durationMs)

/-- The driver's completion timer (cylinder.tsx lines 295-297 and 303-305):
`setTimeout(onAnimationComplete, duration + 100)`, cleared by the effect
cleanup if the trigger is revoked (or the component unmounts) before the
timer fires.  The value lists the wall-clock times at which the completion
callback runs. -/
def completionTimes (durationMs : ℚ) (cancelAt : Option ℚ) : List ℚ :=
  match cancelAt with
  | none => [durationMs + 100]
  | some c => if c < durationMs + 100 then [] else [durationMs + 100]

/-- C9: on a trigger the driver ramps time linearly (value `e/1000` after
`e ≤ duration` elapsed milliseconds), and fires the completion callback
exactly once, at `duration + 100` ms — at or after `duration + 100` and
strictly after the last frame within `[0, duration]` — while a cancellation
before the ramp ends suppresses the callback entirely. -/
theorem dustC9_driver_completion (d : ℚ) (hd : 0 < d) (cancelAt : Option ℚ) :
    (∀ e : ℚ, 0 ≤ e → e ≤ d → rampTime d e = e / 1000) ∧
    (cancelAt = none →
      completionTimes d cancelAt = [d + 100] ∧ d < d + 100) ∧
    (∀ c : ℚ, cancelAt = some c → c < d →
      completionTimes d cancelAt = []) := by
  refine ⟨?_, ?_, ?_⟩
  · intro e he hed
    rw [rampTime]
    by_cases h0 : e ≤ 0
    · rw [if_pos h0]
      have : e = 0 := le_antisymm h0 he
      rw [this]
      norm_num
    · rw [if_neg h0]
      by_cases h1 : d ≤ e
      · rw [if_pos h1]
        have : e = d := le_antisymm hed h1
        rw [this]
      · rw [if_neg h1]
        field_simp
        ring
  · intro h
    subst h
    exact ⟨rfl, by linarith⟩
  · intro c hc hcd
    subst hc
    simp only [completionTimes]
    rw [if_pos (by linarith)]

/-- Witness for C9: with the shipped 1000 ms duration the callback fires at
1100 ms when not cancelled, and not at all when cancelled at 500 ms. -/
theorem dustC9_witness :
    completionTimes DURATION_MS none = [DURATION_MS + 100] ∧
    completionTimes DURATION_MS (some 500) = [] :=
  ⟨((dustC9_driver_completion DURATION_MS (by norm_num [DURATION_MS])
      none).2.1 rfl).1,
   (dustC9_driver_completion DURATION_MS (by norm_num [DURATION_MS])
      (some 500)).2.2 500 rfl (by norm_num [DURATION_MS])⟩

/-! Claim C10. -/

/-- C10: the refined driver ramps time to exactly `DURATION_MS/1000 = 1`, so
during a run `t = time·timeScale ≤ 22`; the `maxTime = 250` early-out never
fires; with `lifetimeMin = 180` every cell's life ratio stays below 0.13 —
in particular below 1 (no particle expires) and below `fadeStart = 0.92`, so
the fade branch is never taken and the fade alpha is identically 1 for all
reachable times. -/
theorem dustC10_run_invariants :
    rampTime DURATION_MS DURATION_MS = 1 ∧
    (∀ (ops : TrigOps) (p : ℚ × ℚ), 0 ≤ hash ops p ∧ hash ops p < 1) ∧
    (∀ time : ℚ, 0 ≤ time → time ≤ 1 →
      time * ANIMATION_CONFIG.timeScale ≤ 22 ∧
      ¬ time * ANIMATION_CONFIG.timeScale > ANIMATION_CONFIG.maxTime ∧
      (∀ h : ℚ, 0 ≤ h →
        time * ANIMATION_CONFIG.timeScale /
            (ANIMATION_CONFIG.lifetimeMin + h * ANIMATION_CONFIG.lifetimeRange)
          < 0.13 ∧
        time * ANIMATION_CONFIG.timeScale /
            (ANIMATION_CONFIG.lifetimeMin + h * ANIMATION_CONFIG.lifetimeRange)
          < 1 ∧
        fadeAlpha ANIMATION_CONFIG.fadeStart
          (time * ANIMATION_CONFIG.timeScale /
            (ANIMATION_CONFIG.lifetimeMin + h * ANIMATION_CONFIG.lifetimeRange))
          = 1)) := by
  refine ⟨by norm_num [rampTime, DURATION_MS], ?_, ?_⟩
  · intro ops p
    exact ⟨Int.fract_nonneg _, Int.fract_lt_one _⟩
  · intro time h0 h1
    have h22 : ANIMATION_CONFIG.timeScale = 22 := by norm_num [ANIMATION_CONFIG]
    have h250 : ANIMATION_CONFIG.maxTime = 250 := by norm_num [ANIMATION_CONFIG]
    have h180 : ANIMATION_CONFIG.lifetimeMin = 180 := by
      norm_num [ANIMATION_CONFIG]
    have h100 : ANIMATION_CONFIG.lifetimeRange = 100 := by
      norm_num [ANIMATION_CONFIG]
    have h92 : ANIMATION_CONFIG.fadeStart = 0.92 := by norm_num [ANIMATION_CONFIG]
    rw [h22, h250, h180, h100, h92]
    have ht : time * 22 ≤ 22 := by nlinarith
    have ht0 : 0 ≤ time * 22 := by nlinarith
    refine ⟨ht, by push_neg; linarith, ?_⟩
    intro h hh
    have hml : (180 : ℚ) ≤ 180 + h * 100 := by nlinarith
    have hmlpos : (0 : ℚ) < 180 + h * 100 := by linarith
    have hlr : time * 22 / (180 + h * 100) < 0.13 := by
      rw [div_lt_iff₀ hmlpos]
      nlinarith
    have hlr0 : 0 ≤ time * 22 / (180 + h * 100) :=
      div_nonneg ht0 (le_of_lt hmlpos)
    refine ⟨hlr, by linarith, ?_⟩
    have hle : time * 22 / (180 + h * 100) ≤ 0.92 := by
      have : (0.13 : ℚ) ≤ 0.92 := by norm_num
      linarith
    rw [fadeAlpha, if_neg (not_lt.mpr hle)]
    norm_num

/-- Witness for C10 at the end of the ramp (`time = 1`) and the cell with
hash value 0: the fade alpha is still 1. -/
theorem dustC10_witness :
    fadeAlpha ANIMATION_CONFIG.fadeStart
      (1 * ANIMATION_CONFIG.timeScale /
        (ANIMATION_CONFIG.lifetimeMin + 0 * ANIMATION_CONFIG.lifetimeRange))
      = 1 :=
  ((dustC10_run_invariants.2.2 1 (by norm_num) (by norm_num)).2.2 0
    (by norm_num)).2.2

end DustEffect
